import Mathlib

/-!
Shallow embedding of the market data-access layer of `app_immo.py`
(Streamlit real-estate dashboard).  Remote calls are modelled by passing
the server's response (or a query descriptor) explicitly; pandas
operations are modelled on Lean lists; fallible parsing is modelled with
`Option`.
-/

namespace AppImmo

/-- The session-wide join column, set once at startup
(`st.session_state.join_id = 'code_postal'`). -/
def join_id : String := "code_postal"

/-- Python `str.zfill(width)`: left-pad with `'0'` to `width` characters,
keeping a leading sign character in front of the padding. -/
def zfill (width : Nat) (s : String) : String :=
  if width ≤ s.length then s
  else
    match s.data with
    | [] => String.mk (List.replicate width '0')
    | c :: rest =>
      if c = '+' ∨ c = '-' then
        String.mk (c :: (List.replicate (width - s.length) '0' ++ rest))
      else
        String.mk (List.replicate (width - s.length) '0' ++ s.data)

/-- One page request: Supabase `range(offset, offset + PAGE_SIZE - 1)` is
inclusive on both ends, so it returns `PAGE_SIZE` rows starting at
`offset` (fewer at the end of the table). -/
def pageAt (table : List α) (pageSize offset : Nat) : List α :=
  (table.drop offset).take pageSize

/-- The pagination loop of `get_villes_list`: request a page; stop on an
empty page, or after a short page; otherwise advance the offset by the
page size and continue.  Returns the concatenated data together with the
number of page requests issued. -/
def fetchLoop (table : List α) (pageSize offset : Nat) : List α × Nat :=
  if h : (pageAt table pageSize offset).length = 0 then ([], 1)
  else if h' : (pageAt table pageSize offset).length < pageSize then
    (pageAt table pageSize offset, 1)
  else
    (pageAt table pageSize offset ++ (fetchLoop table pageSize (offset + pageSize)).1,
     (fetchLoop table pageSize (offset + pageSize)).2 + 1)
termination_by table.length - offset
decreasing_by
  all_goals simp only [pageAt, List.length_take, List.length_drop] at h h'
  all_goals omega

/-- `get_villes_list` uses a fixed page size of 1000. -/
def PAGE_SIZE : Nat := 1000

/-- The full paginated fetch of the commune reference table, starting at
offset 0 with the fixed page size. -/
def get_villes_fetch (table : List α) : List α × Nat :=
  fetchLoop table PAGE_SIZE 0

theorem fetchLoop_spec {α : Type} (table : List α) (pageSize : Nat)
    (hP : 0 < pageSize) :
    ∀ offset, (fetchLoop table pageSize offset).1 = table.drop offset ∧
      (fetchLoop table pageSize offset).2 =
        (table.length - offset) / pageSize + 1 := by
  intro offset
  have hmeasure : ∀ k offset, table.length - offset ≤ k →
      (fetchLoop table pageSize offset).1 = table.drop offset ∧
      (fetchLoop table pageSize offset).2 =
        (table.length - offset) / pageSize + 1 := by
    intro k
    induction k with
    | zero =>
      intro offset hk
      have hrem : table.length - offset = 0 := by omega
      have hdrop : table.drop offset = [] := by
        apply List.drop_eq_nil_of_le
        omega
      have h0 : (pageAt table pageSize offset).length = 0 := by
        simp [pageAt, hdrop]
      rw [fetchLoop.eq_def, dif_pos h0]
      refine ⟨hdrop.symm, ?_⟩
      rw [hrem, Nat.zero_div]
    | succ n ih =>
      intro offset hk
      have hlen : (pageAt table pageSize offset).length =
          min pageSize (table.length - offset) := by
        simp [pageAt]
      rw [fetchLoop.eq_def]
      by_cases h : (pageAt table pageSize offset).length = 0
      · have hrem : table.length - offset = 0 := by omega
        have hdrop : table.drop offset = [] := by
          apply List.drop_eq_nil_of_le
          omega
        rw [dif_pos h]
        refine ⟨hdrop.symm, ?_⟩
        rw [hrem, Nat.zero_div]
      · by_cases h' : (pageAt table pageSize offset).length < pageSize
        · have hrem : table.length - offset < pageSize := by omega
          have hdiv : (table.length - offset) / pageSize = 0 :=
            Nat.div_eq_of_lt hrem
          have htake : pageAt table pageSize offset = table.drop offset := by
            simp only [pageAt]
            apply List.take_of_length_le
            simp only [List.length_drop]
            omega
          rw [dif_neg h, dif_pos h']
          refine ⟨htake, ?_⟩
          rw [hdiv]
        · have hge : pageSize ≤ table.length - offset := by omega
          have hk' : table.length - (offset + pageSize) ≤ n := by omega
          obtain ⟨ih1, ih2⟩ := ih (offset + pageSize) hk'
          rw [dif_neg h, dif_neg h']
          constructor
          · show pageAt table pageSize offset ++
                (fetchLoop table pageSize (offset + pageSize)).1 =
              table.drop offset
            simp only [pageAt]
            rw [ih1]
            rw [← List.drop_drop]
            exact List.take_append_drop pageSize (table.drop offset)
          · show (fetchLoop table pageSize (offset + pageSize)).2 + 1 =
              (table.length - offset) / pageSize + 1
            rw [ih2]
            have hstep := Nat.div_eq_sub_div hP hge
            have harith : table.length - (offset + pageSize) =
                table.length - offset - pageSize := by omega
            rw [harith, hstep]
  exact hmeasure (table.length - offset) offset le_rfl

/-! ## Commune directory: normalization, label, dedup, sort
(`get_villes_list`, lines 109-125 of `app_immo.py`). -/

/-- One row of the `Dim_ville` reference table as selected by
`get_villes_list` (`code_insee, code_postal, nom_commune`). -/
structure VilleRow where
  code_insee : String
  code_postal : String
  nom_commune : String
deriving DecidableEq

/-- Lines 113-114: `astype(str).str.zfill(5)` on the join column
(`code_postal`) and on `code_insee`. -/
def normalizeVille (r : VilleRow) : VilleRow :=
  { r with code_postal := zfill 5 r.code_postal, code_insee := zfill 5 r.code_insee }

/-- Line 118: `df['label'] = df['nom_commune'] + " (" + df[join_id] + ")"`. -/
def labelOf (r : VilleRow) : String :=
  r.nom_commune ++ " (" ++ r.code_postal ++ ")"

/-- `df.drop_duplicates(subset=['label'])`: pandas keeps the first
occurrence of each label; `seen` accumulates the labels already kept. -/
def dedupAux (seen : List String) : List VilleRow → List VilleRow
  | [] => []
  | r :: rest =>
    if labelOf r ∈ seen then dedupAux seen rest
    else r :: dedupAux (labelOf r :: seen) rest

/-- Line 119: deduplication on the computed label, first occurrence kept. -/
def dedupByLabel (rows : List VilleRow) : List VilleRow :=
  dedupAux [] rows

/-- Comparison used by `df.sort_values('nom_commune')`. -/
def nameLe (a b : VilleRow) : Prop :=
  a.nom_commune ≤ b.nom_commune

instance : DecidableRel nameLe :=
  fun a b => inferInstanceAs (Decidable (a.nom_commune ≤ b.nom_commune))

instance : IsTotal VilleRow nameLe :=
  ⟨fun a b => le_total a.nom_commune b.nom_commune⟩

instance : IsTrans VilleRow nameLe :=
  ⟨fun _ _ _ hab hbc => le_trans hab hbc⟩

/-- Line 124: `df.sort_values('nom_commune')` — some sort of the frame by
commune name (pandas does not promise stability for the default kind). -/
def sortByName (rows : List VilleRow) : List VilleRow :=
  rows.insertionSort nameLe

/-- The in-memory post-processing of `get_villes_list` applied to the
paginated rows: normalize both codes, deduplicate on the label, sort by
commune name. -/
def get_villes_list_process (rows : List VilleRow) : List VilleRow :=
  sortByName (dedupByLabel (rows.map normalizeVille))

/-! ## Query descriptors built by the fetchers -/

/-- The query issued by `get_city_data_full` (lines 135-144): a column
projection on `Dim_ville` with an equality filter on the join column,
whose compared value is the zero-padded key. -/
structure CityQuery where
  table : String
  selectCols : String
  eqCol : String
  eqVal : String
deriving DecidableEq

/-- `get_city_data_full` builds its query from `str(join_key_value).zfill(5)`. -/
def cityDataQuery (join_key_value : String) : CityQuery :=
  { table := "Dim_ville"
    selectCols := "code_insee, code_postal, nom_commune, loypredm2, TYPPRED, lwr.IPm2, upr.IPm2, R2_adj, loypredm2_t1t2, loypredm2_t3plus, loypredm2_maison"
    eqCol := join_id
    eqVal := zfill 5 join_key_value }

/-- The query issued by `get_transactions` (lines 171-177): select `*`
from the fact table, equality on the join column, two server-side
greater-than filters, and a row cap. -/
structure TransacQuery where
  table : String
  selectCols : String
  eqCol : String
  eqVal : String
  gtValeurCol : String
  gtValeurBound : ℚ
  gtSurfaceCol : String
  gtSurfaceBound : ℚ
  rowCap : Nat
deriving DecidableEq

/-- `get_transactions` builds its query from `str(join_key_value).zfill(5)`. -/
def transactionsQuery (join_key_value : String) : TransacQuery :=
  { table := "Fct_transaction_immo"
    selectCols := "*"
    eqCol := join_id
    eqVal := zfill 5 join_key_value
    gtValeurCol := "valeur_fonciere"
    gtValeurBound := 5000
    gtSurfaceCol := "surface_reelle_bati"
    gtSurfaceBound := 9
    rowCap := 50000 }

/-- Result of executing a remote query: either the returned rows, or a
`postgrest` `APIError` (missing column, RLS/permission denial, ...). -/
inductive QueryResult (α : Type) where
  | ok (rows : List α)
  | apiError (msg : String)

/-! ## Commune detail fetcher (`get_city_data_full`, lines 127-153) -/

/-- A detail record of `Dim_ville`.  Absent dictionary keys surface as
Python `None` through `.get(...)`, modelled by `PyVal.pnone`. -/
inductive PyVal where
  | pnone
  | pnum (q : ℚ)
  | pstr (s : String)
deriving DecidableEq

/-- The full attribute set selected by `get_city_data_full`.  Rent and
reliability columns may hold numbers, text (comma decimals) or nulls. -/
structure CityInfo where
  code_insee : String
  code_postal : String
  nom_commune : String
  loypredm2 : PyVal
  TYPPRED : Option String
  lwr_IPm2 : PyVal
  upr_IPm2 : PyVal
  R2_adj : PyVal
  loypredm2_t1t2 : PyVal
  loypredm2_t3plus : PyVal
  loypredm2_maison : PyVal
deriving DecidableEq

/-- `get_city_data_full` applied to the server's response: on data it
returns the first row (`response.data[0]`), on an empty response it falls
through to `return None`, and an `APIError` is caught, logged to stderr,
and also ends in `return None`. -/
def get_city_data_full (response : QueryResult CityInfo) : Option CityInfo :=
  match response with
  | .ok [] => none
  | .ok (r :: _) => some r
  | .apiError _ => none

/-! ## Transaction fetcher & cleaner (`get_transactions`, lines 155-204) -/

/-- A calendar date as produced by `pd.to_datetime`; only the year is
consumed by the metric layer (`.dt.year`). -/
structure MDate where
  year : Int
  month : Nat
  day : Nat
deriving DecidableEq

/-- One raw row of `Fct_transaction_immo` as returned by the server.
Each typed field carries the outcome of the coercion the code applies to
it (`pd.to_datetime(..., errors='coerce')` / `pd.to_numeric(...,
errors='coerce')`): `none` models a `NaT`/`NaN` parse failure. -/
structure RawTransac where
  date_mutation : Option MDate
  valeur_fonciere : Option ℚ
  surface_reelle_bati : Option ℚ
  type_local : String
deriving DecidableEq

/-- A row that survived `dropna(subset=['date_mutation',
'valeur_fonciere', 'surface_reelle_bati'])`: all three fields parsed. -/
structure ParsedTransac where
  date : MDate
  valeur_fonciere : ℚ
  surface_reelle_bati : ℚ
deriving DecidableEq

/-- Lines 192-196: coerce the three columns, then drop the rows in which
any of them failed to parse. -/
def parseTransac (r : RawTransac) : Option ParsedTransac :=
  match r.date_mutation, r.valeur_fonciere, r.surface_reelle_bati with
  | some d, some v, some s => some ⟨d, v, s⟩
  | _, _, _ => none

/-- The dataframe after the `dropna` of line 196. -/
def dropna (rows : List RawTransac) : List ParsedTransac :=
  rows.filterMap parseTransac

/-- A cleaned transaction row with its derived `prix_m2` column. -/
structure CleanTransac where
  date : MDate
  valeur_fonciere : ℚ
  surface_reelle_bati : ℚ
  prix_m2 : ℚ
deriving DecidableEq

/-- Line 199: `df['prix_m2'] = df['valeur_fonciere'] / df['surface_reelle_bati']`. -/
def addPrix (p : ParsedTransac) : CleanTransac :=
  ⟨p.date, p.valeur_fonciere, p.surface_reelle_bati,
   p.valeur_fonciere / p.surface_reelle_bati⟩

/-- Lines 190-202 of `get_transactions`: type coercion, `dropna`,
`prix_m2` derivation, then the outlier band
`(df['prix_m2'] > 500) & (df['prix_m2'] < 30000)`. -/
def cleanTransactions (rows : List RawTransac) : List CleanTransac :=
  ((dropna rows).map addPrix).filter
    (fun c => decide (500 < c.prix_m2) && decide (c.prix_m2 < 30000))

/-- `get_transactions` applied to the server's response: an `APIError` is
caught, an error is shown, and an empty dataframe is returned; otherwise
the rows are cleaned. -/
def get_transactions (response : QueryResult RawTransac) : List CleanTransac :=
  match response with
  | .apiError _ => []
  | .ok rows => cleanTransactions rows

/-! ## Metric deriver (dashboard lines 352-383) -/

/-- `pandas.Series.median()` on a non-empty column: sort the values and
take the middle element (odd length) or the mean of the two middle
elements (even length). -/
def pandasMedian (l : List ℚ) : ℚ :=
  if l.length % 2 = 1 then
    (l.insertionSort (· ≤ ·)).getD (l.length / 2) 0
  else
    ((l.insertionSort (· ≤ ·)).getD (l.length / 2 - 1) 0 +
     (l.insertionSort (· ≤ ·)).getD (l.length / 2) 0) / 2

/-- Lines 352-353: `prix_m2_achat = df['prix_m2'].median() if not
df.empty else 0.0` (the median of a non-empty rational column is never
`NaN`, so line 353 keeps it unchanged). -/
def prix_m2_achat (df_transac : List CleanTransac) : ℚ :=
  if df_transac.isEmpty then 0
  else pandasMedian (df_transac.map (fun c => c.prix_m2))

/-- Python `int(x)` on a float: truncation toward zero. -/
def truncQ (x : ℚ) : Int :=
  if 0 ≤ x then ⌊x⌋ else ⌈x⌉

/-- Lines 355-362: `delta_prix` starts at 0; when there are transactions,
`derniere_annee` is the max year, `prix_m2_historique` the overall median,
`prix_m2_recent` the median over the most recent year (falling back to
`prix_m2_achat` if that median were `NaN`), and the delta is
`int(prix_m2_recent - prix_m2_historique)`. -/
def delta_prix (df_transac : List CleanTransac) : Int :=
  match (df_transac.map (fun c => c.date.year)).max? with
  | none => 0
  | some derniere_annee =>
    let prix_m2_historique := pandasMedian (df_transac.map (fun c => c.prix_m2))
    let recents := df_transac.filter (fun c => decide (c.date.year = derniere_annee))
    let prix_m2_recent :=
      if recents.isEmpty then prix_m2_achat df_transac
      else pandasMedian (recents.map (fun c => c.prix_m2))
    truncQ (prix_m2_recent - prix_m2_historique)

/-- `convert_loyer_to_float` (lines 208-226): `None` becomes `0.0`;
otherwise the value is stringified, the decimal comma replaced by a dot,
and parsed as a float, with `0.0` on a `ValueError`.  `pyFloat` stands
for Python's `float(...)` string parser (`none` = `ValueError`); a
numeric value round-trips through `str`/`float` unchanged. -/
def convert_loyer_to_float (pyFloat : String → Option ℚ) : PyVal → ℚ
  | .pnone => 0
  | .pnum q => q
  | .pstr s =>
    match pyFloat (s.replace "," ".") with
    | some q => q
    | none => 0

/-- The key figures derived by the dashboard body (lines 352-383). -/
structure KPIs where
  prix_m2_achat : ℚ
  delta_prix : Int
  nb_transactions : Nat
  loyer_m2_all : ℚ
  loyer_m2_t1t2 : ℚ
  loyer_m2_t3plus : ℚ
  loyer_m2_maison : ℚ
  typ_pred : String
  lwr_ip : ℚ
  upr_ip : ℚ
  r2_adj : ℚ
  renta_brute : ℚ
deriving DecidableEq

/-- Lines 352-383 of the dashboard: purchase metrics from the cleaned
transactions, rent metrics from the optional `Dim_ville` record (every
rent-derived figure falls back to `0.0`, and `TYPPRED` to `'N/A'`, when
`info_ville` is `None`), and the gross-yield guard. -/
def computeKPIs (pyFloat : String → Option ℚ) (info_ville : Option CityInfo)
    (df_transac : List CleanTransac) : KPIs :=
  let prix := prix_m2_achat df_transac
  let loyer_m2_all :=
    match info_ville with
    | some i => convert_loyer_to_float pyFloat i.loypredm2
    | none => 0
  { prix_m2_achat := prix
    delta_prix := delta_prix df_transac
    nb_transactions := df_transac.length
    loyer_m2_all := loyer_m2_all
    loyer_m2_t1t2 :=
      match info_ville with
      | some i => convert_loyer_to_float pyFloat i.loypredm2_t1t2
      | none => 0
    loyer_m2_t3plus :=
      match info_ville with
      | some i => convert_loyer_to_float pyFloat i.loypredm2_t3plus
      | none => 0
    loyer_m2_maison :=
      match info_ville with
      | some i => convert_loyer_to_float pyFloat i.loypredm2_maison
      | none => 0
    typ_pred :=
      match info_ville with
      | some i => i.TYPPRED.getD "N/A"
      | none => "N/A"
    lwr_ip :=
      match info_ville with
      | some i => convert_loyer_to_float pyFloat i.lwr_IPm2
      | none => 0
    upr_ip :=
      match info_ville with
      | some i => convert_loyer_to_float pyFloat i.upr_IPm2
      | none => 0
    r2_adj :=
      match info_ville with
      | some i => convert_loyer_to_float pyFloat i.R2_adj
      | none => 0
    renta_brute :=
      if prix > 0 ∧ loyer_m2_all > 0 then loyer_m2_all * 12 / prix * 100
      else 0 }

/-! ## Theorems -/

/-- C1 (counterexample).  With the fixed page size `P = 1000` and a table
of exactly `N = 1000` rows, the loop issues a second request (which
returns an empty page) before stopping, so it issues 2 requests while
`ceil(N/P) = ceil(1000/1000) = (1000 + 1000 - 1) / 1000 = 1`: the claimed
request count is wrong whenever `P` divides `N`. -/
theorem C1_counterexample :
    (get_villes_fetch (List.replicate 1000 (0 : Nat))).2 = 2 ∧
    (1000 + 1000 - 1) / 1000 = 1 := by
  constructor
  · show (fetchLoop (List.replicate 1000 (0 : Nat)) 1000 0).2 = 2
    have h := (fetchLoop_spec (List.replicate 1000 (0 : Nat)) 1000
      (by norm_num) 0).2
    simp only [List.length_replicate, Nat.sub_zero] at h
    norm_num at h
    exact h
  · norm_num

/-- C1 (amended).  The pagination loop of the directory loader always
terminates; for a table of `N` rows and page size `P = 1000` it returns
exactly the `N` source records in order — none lost, none duplicated —
and issues `N / P + 1` page requests (integer division).  This equals
`ceil(N/P)` when `P` does not divide `N`; when `P` divides `N` (including
`N = 0`) the loop issues one request more than `ceil(N/P)`, the final
request returning the empty page that stops it. -/
theorem C1_pagination {α : Type} (table : List α) :
    (get_villes_fetch table).1 = table ∧
    (get_villes_fetch table).2 = table.length / PAGE_SIZE + 1 := by
  have h := fetchLoop_spec table PAGE_SIZE (by norm_num [PAGE_SIZE]) 0
  simpa [get_villes_fetch] using h

/-- C4 (counterexample).  An `APIError` from the remote store (for
example an RLS permission denial) is caught inside `get_city_data_full`
and produces the very same return value, `None`, as a well-formed query
that matches no row: the caller cannot tell "commune has no reference
data" apart from "the query itself failed" from the result. -/
theorem C4_counterexample :
    get_city_data_full (QueryResult.apiError "permission denied for table Dim_ville") =
      get_city_data_full (QueryResult.ok ([] : List CityInfo)) ∧
    get_city_data_full (QueryResult.ok ([] : List CityInfo)) = none := by
  exact ⟨rfl, rfl⟩

/-- C4 (amended).  The commune detail fetcher returns the first row of a
non-empty response, and `None` for an empty match — it never throws for a
simple empty match.  However, a remote API error is also caught and
returns `None`: the error is only logged to stderr, so the caller-visible
result does not distinguish "record not found" from "the query itself
failed". -/
theorem C4_detail_fetch :
    (∀ (r : CityInfo) (rows : List CityInfo),
      get_city_data_full (QueryResult.ok (r :: rows)) = some r) ∧
    get_city_data_full (QueryResult.ok ([] : List CityInfo)) = none ∧
    (∀ msg : String, get_city_data_full (QueryResult.apiError msg) = none) := by
  refine ⟨fun r rows => rfl, rfl, fun msg => rfl⟩

/-- C5 (confirmed).  In the dashboard's KPI computation, the gross yield
equals `(loyer_m2_all * 12 / prix_m2_achat) * 100` whenever both the
median purchase price and the estimated rent are positive, and `0`
otherwise; in particular a zero median price yields `0` with no division
performed. -/
theorem C5_renta_brute (pyFloat : String → Option ℚ)
    (info_ville : Option CityInfo) (df_transac : List CleanTransac) :
    ((computeKPIs pyFloat info_ville df_transac).prix_m2_achat > 0 →
     (computeKPIs pyFloat info_ville df_transac).loyer_m2_all > 0 →
     (computeKPIs pyFloat info_ville df_transac).renta_brute =
       (computeKPIs pyFloat info_ville df_transac).loyer_m2_all * 12 /
         (computeKPIs pyFloat info_ville df_transac).prix_m2_achat * 100) ∧
    (¬((computeKPIs pyFloat info_ville df_transac).prix_m2_achat > 0 ∧
       (computeKPIs pyFloat info_ville df_transac).loyer_m2_all > 0) →
     (computeKPIs pyFloat info_ville df_transac).renta_brute = 0) ∧
    ((computeKPIs pyFloat info_ville df_transac).prix_m2_achat = 0 →
     (computeKPIs pyFloat info_ville df_transac).renta_brute = 0) := by
  refine ⟨?_, ?_, ?_⟩
  · intro hp hl
    simp only [computeKPIs] at *
    rw [if_pos ⟨hp, hl⟩]
  · intro hn
    simp only [computeKPIs] at *
    rw [if_neg hn]
  · intro hz
    simp only [computeKPIs] at *
    rw [if_neg]
    rw [hz]
    simp

/-- Witness for C5 at a concrete input: a single cleaned transaction at
2000 €/m² and a commune record predicting 10 €/m² of rent give a gross
yield of `(10 * 12 / 2000) * 100 = 6`. -/
theorem C5_renta_brute_witness :
    (computeKPIs (fun _ => none)
      (some ⟨"33063", "33000", "Bordeaux", PyVal.pnum 10, some "commune",
             PyVal.pnum 9, PyVal.pnum 11, PyVal.pnum (8/10), PyVal.pnone,
             PyVal.pnone, PyVal.pnone⟩)
      [⟨⟨2023, 5, 1⟩, 200000, 100, 2000⟩]).renta_brute = 6 := by
  have h := (C5_renta_brute (fun _ => none)
      (some ⟨"33063", "33000", "Bordeaux", PyVal.pnum 10, some "commune",
             PyVal.pnum 9, PyVal.pnum 11, PyVal.pnum (8/10), PyVal.pnone,
             PyVal.pnone, PyVal.pnone⟩)
      [⟨⟨2023, 5, 1⟩, 200000, 100, 2000⟩]).1 (by decide) (by decide)
  rw [h]
  simp only [computeKPIs, prix_m2_achat, pandasMedian, convert_loyer_to_float]
  norm_num

/-- C9 (confirmed).  When the commune detail fetch returns `None`, every
rent-derived figure (the four rent typologies, the prediction-interval
bounds, the adjusted R²) is `0`, `TYPPRED` is the sentinel `'N/A'`, the
gross yield is `0`, and the transaction-based metrics are still computed
from the cleaned transaction list alone. -/
theorem C9_no_detail_defaults (pyFloat : String → Option ℚ)
    (df_transac : List CleanTransac) :
    (computeKPIs pyFloat none df_transac).loyer_m2_all = 0 ∧
    (computeKPIs pyFloat none df_transac).loyer_m2_t1t2 = 0 ∧
    (computeKPIs pyFloat none df_transac).loyer_m2_t3plus = 0 ∧
    (computeKPIs pyFloat none df_transac).loyer_m2_maison = 0 ∧
    (computeKPIs pyFloat none df_transac).typ_pred = "N/A" ∧
    (computeKPIs pyFloat none df_transac).lwr_ip = 0 ∧
    (computeKPIs pyFloat none df_transac).upr_ip = 0 ∧
    (computeKPIs pyFloat none df_transac).r2_adj = 0 ∧
    (computeKPIs pyFloat none df_transac).renta_brute = 0 ∧
    (computeKPIs pyFloat none df_transac).prix_m2_achat = prix_m2_achat df_transac ∧
    (computeKPIs pyFloat none df_transac).delta_prix = delta_prix df_transac ∧
    (computeKPIs pyFloat none df_transac).nb_transactions = df_transac.length := by
  simp [computeKPIs]

theorem parseTransac_eq_some {r : RawTransac} {p : ParsedTransac}
    (h : parseTransac r = some p) :
    r.date_mutation = some p.date ∧
    r.valeur_fonciere = some p.valeur_fonciere ∧
    r.surface_reelle_bati = some p.surface_reelle_bati := by
  unfold parseTransac at h
  cases hd : r.date_mutation with
  | none => rw [hd] at h; exact absurd h (by simp)
  | some d =>
    cases hv : r.valeur_fonciere with
    | none => rw [hd, hv] at h; exact absurd h (by simp)
    | some v =>
      cases hs : r.surface_reelle_bati with
      | none => rw [hd, hv, hs] at h; exact absurd h (by simp)
      | some s =>
        rw [hd, hv, hs] at h
        simp only [Option.some.injEq] at h
        subst h
        exact ⟨rfl, rfl, rfl⟩

/-- C2 (confirmed).  The transaction query carries the server-side
filters (join-key equality on the zero-padded key, `valeur_fonciere >
5000`, `surface_reelle_bati > 9`) and the 50,000-row cap; the cleaning
step never grows the row set; and every cleaned row originates from a
response row whose date, value and area all parsed (rows failing any
parse are dropped, not zeroed), carries `prix_m2 =
valeur_fonciere / surface_reelle_bati`, and satisfies
`500 < prix_m2 < 30000`. -/
theorem C2_transaction_cleaning :
    (∀ k : String,
      (transactionsQuery k).eqCol = join_id ∧
      (transactionsQuery k).eqVal = zfill 5 k ∧
      (transactionsQuery k).gtValeurCol = "valeur_fonciere" ∧
      (transactionsQuery k).gtValeurBound = 5000 ∧
      (transactionsQuery k).gtSurfaceCol = "surface_reelle_bati" ∧
      (transactionsQuery k).gtSurfaceBound = 9 ∧
      (transactionsQuery k).rowCap = 50000) ∧
    (∀ rows : List RawTransac,
      (cleanTransactions rows).length ≤ rows.length) ∧
    (∀ (rows : List RawTransac) (c : CleanTransac),
      c ∈ cleanTransactions rows →
      500 < c.prix_m2 ∧ c.prix_m2 < 30000 ∧
      ∃ r ∈ rows,
        r.date_mutation = some c.date ∧
        r.valeur_fonciere = some c.valeur_fonciere ∧
        r.surface_reelle_bati = some c.surface_reelle_bati ∧
        c.prix_m2 = c.valeur_fonciere / c.surface_reelle_bati) := by
  refine ⟨fun k => ⟨rfl, rfl, rfl, rfl, rfl, rfl, rfl⟩, ?_, ?_⟩
  · intro rows
    calc (cleanTransactions rows).length
        ≤ ((dropna rows).map addPrix).length := List.length_filter_le _ _
      _ = (dropna rows).length := List.length_map _ _
      _ ≤ rows.length := List.length_filterMap_le _ _
  · intro rows c hc
    unfold cleanTransactions at hc
    rw [List.mem_filter] at hc
    obtain ⟨hmem, hband⟩ := hc
    simp only [Bool.and_eq_true, decide_eq_true_eq] at hband
    rw [List.mem_map] at hmem
    obtain ⟨p, hp, hpc⟩ := hmem
    rw [dropna, List.mem_filterMap] at hp
    obtain ⟨r, hr, hpr⟩ := hp
    obtain ⟨hd, hv, hs⟩ := parseTransac_eq_some hpr
    subst hpc
    exact ⟨hband.1, hband.2, r, hr, hd, hv, hs, rfl⟩

/-- Witness for C2 at a concrete input: one fully-parseable response row
(150,000 € for 100 m², May 2021) survives cleaning with `prix_m2 = 1500`
inside the outlier band. -/
theorem C2_transaction_cleaning_witness :
    500 < (⟨⟨2021, 5, 3⟩, 150000, 100, 1500⟩ : CleanTransac).prix_m2 ∧
    (⟨⟨2021, 5, 3⟩, 150000, 100, 1500⟩ : CleanTransac).prix_m2 < 30000 ∧
    ∃ r ∈ [(⟨some ⟨2021, 5, 3⟩, some 150000, some 100, "Appartement"⟩ : RawTransac)],
      r.date_mutation = some (⟨⟨2021, 5, 3⟩, 150000, 100, 1500⟩ : CleanTransac).date ∧
      r.valeur_fonciere = some (⟨⟨2021, 5, 3⟩, 150000, 100, 1500⟩ : CleanTransac).valeur_fonciere ∧
      r.surface_reelle_bati = some (⟨⟨2021, 5, 3⟩, 150000, 100, 1500⟩ : CleanTransac).surface_reelle_bati ∧
      (⟨⟨2021, 5, 3⟩, 150000, 100, 1500⟩ : CleanTransac).prix_m2 =
        (⟨⟨2021, 5, 3⟩, 150000, 100, 1500⟩ : CleanTransac).valeur_fonciere /
        (⟨⟨2021, 5, 3⟩, 150000, 100, 1500⟩ : CleanTransac).surface_reelle_bati := by
  apply C2_transaction_cleaning.2.2
    [(⟨some ⟨2021, 5, 3⟩, some 150000, some 100, "Appartement"⟩ : RawTransac)]
  have heval : cleanTransactions
      [(⟨some ⟨2021, 5, 3⟩, some 150000, some 100, "Appartement"⟩ : RawTransac)] =
      [(⟨⟨2021, 5, 3⟩, 150000, 100, 1500⟩ : CleanTransac)] := by
    norm_num [cleanTransactions, dropna, parseTransac, addPrix, List.filter]
  rw [heval]
  exact List.mem_singleton.mpr rfl

/-- C8 (confirmed).  Every row that reaches the `prix_m2` division has
already passed the `dropna` (its area parsed to a number) and — under the
server-side guarantee `surface_reelle_bati > 9` of the query — that
parsed divisor is strictly positive, so the division is well defined. -/
theorem C8_division_guard (rows : List RawTransac)
    (hserver : ∀ r ∈ rows, ∀ s : ℚ, r.surface_reelle_bati = some s → 9 < s) :
    ∀ p ∈ dropna rows, 0 < p.surface_reelle_bati ∧
      (addPrix p).prix_m2 = p.valeur_fonciere / p.surface_reelle_bati := by
  intro p hp
  rw [dropna, List.mem_filterMap] at hp
  obtain ⟨r, hr, hpr⟩ := hp
  have h9 := hserver r hr p.surface_reelle_bati (parseTransac_eq_some hpr).2.2
  exact ⟨by linarith, rfl⟩

/-- Witness for C8 at a concrete input: a single response row with a
parsed area of 50 m² (passing the server-side `> 9` filter) reaches the
division with a positive divisor. -/
theorem C8_division_guard_witness :
    0 < (⟨⟨2020, 1, 1⟩, 100000, 50⟩ : ParsedTransac).surface_reelle_bati ∧
    (addPrix (⟨⟨2020, 1, 1⟩, 100000, 50⟩ : ParsedTransac)).prix_m2 =
      (⟨⟨2020, 1, 1⟩, 100000, 50⟩ : ParsedTransac).valeur_fonciere /
      (⟨⟨2020, 1, 1⟩, 100000, 50⟩ : ParsedTransac).surface_reelle_bati := by
  have hserver : ∀ r ∈ [(⟨some ⟨2020, 1, 1⟩, some 100000, some 50, "Maison"⟩ :
      RawTransac)], ∀ s : ℚ, r.surface_reelle_bati = some s → 9 < s := by
    intro r hr s hs
    rw [List.mem_singleton] at hr
    subst hr
    simp only [Option.some.injEq] at hs
    subst hs
    norm_num
  exact C8_division_guard _ hserver _ (by decide)

/-- C7 (confirmed).  The median purchase price is 0 for an empty cleaned
set; on the spec's examples it gives 2000 for `[1000, 2000, 3000]` and
1500 for `[1000, 2000]`; and in general it equals the standard median of
the `prix_m2` column: there is a sorted permutation `s` of that column
whose middle element (odd length) or mean of middle elements (even
length) is the returned value. -/
theorem C7_median :
    prix_m2_achat [] = 0 ∧
    prix_m2_achat [⟨⟨2022, 1, 1⟩, 1, 1, 1000⟩, ⟨⟨2022, 2, 1⟩, 1, 1, 2000⟩,
      ⟨⟨2022, 3, 1⟩, 1, 1, 3000⟩] = 2000 ∧
    prix_m2_achat [⟨⟨2022, 1, 1⟩, 1, 1, 1000⟩, ⟨⟨2022, 2, 1⟩, 1, 1, 2000⟩] = 1500 ∧
    ∀ df : List CleanTransac, df ≠ [] →
      ∃ s : List ℚ, List.Perm (df.map (fun c => c.prix_m2)) s ∧
        s.Sorted (· ≤ ·) ∧
        prix_m2_achat df =
          (if df.length % 2 = 1 then s.getD (df.length / 2) 0
           else (s.getD (df.length / 2 - 1) 0 + s.getD (df.length / 2) 0) / 2) := by
  refine ⟨rfl, ?_, ?_, ?_⟩
  · norm_num [prix_m2_achat, pandasMedian]
  · norm_num [prix_m2_achat, pandasMedian]
  · intro df hdf
    refine ⟨(df.map (fun c => c.prix_m2)).insertionSort (· ≤ ·),
      (List.perm_insertionSort _ _).symm, List.sorted_insertionSort _ _, ?_⟩
    rw [prix_m2_achat, if_neg (by simpa using hdf)]
    rw [pandasMedian, List.length_map]

/-- Witness for C7 at a concrete input: the even-length example
`[1000, 2000]` instantiates the general sorted-permutation
characterization. -/
theorem C7_median_witness :
    ∃ s : List ℚ,
      List.Perm (([⟨⟨2022, 1, 1⟩, 1, 1, 1000⟩, ⟨⟨2022, 2, 1⟩, 1, 1, 2000⟩] :
        List CleanTransac).map (fun c => c.prix_m2)) s ∧
      s.Sorted (· ≤ ·) ∧
      prix_m2_achat [⟨⟨2022, 1, 1⟩, 1, 1, 1000⟩, ⟨⟨2022, 2, 1⟩, 1, 1, 2000⟩] =
        (if ([⟨⟨2022, 1, 1⟩, 1, 1, 1000⟩, ⟨⟨2022, 2, 1⟩, 1, 1, 2000⟩] :
            List CleanTransac).length % 2 = 1 then
          s.getD (([⟨⟨2022, 1, 1⟩, 1, 1, 1000⟩, ⟨⟨2022, 2, 1⟩, 1, 1, 2000⟩] :
            List CleanTransac).length / 2) 0
        else
          (s.getD (([⟨⟨2022, 1, 1⟩, 1, 1, 1000⟩, ⟨⟨2022, 2, 1⟩, 1, 1, 2000⟩] :
              List CleanTransac).length / 2 - 1) 0 +
           s.getD (([⟨⟨2022, 1, 1⟩, 1, 1, 1000⟩, ⟨⟨2022, 2, 1⟩, 1, 1, 2000⟩] :
              List CleanTransac).length / 2) 0) / 2) :=
  C7_median.2.2.2 _ (List.cons_ne_nil _ _)

theorem delta_prix_eq_of_max {df : List CleanTransac} {y : Int}
    (hy : (df.map (fun c => c.date.year)).max? = some y) :
    delta_prix df =
      truncQ ((if (df.filter (fun c => decide (c.date.year = y))).isEmpty then
          prix_m2_achat df
        else
          pandasMedian ((df.filter (fun c => decide (c.date.year = y))).map
            (fun c => c.prix_m2))) -
        pandasMedian (df.map (fun c => c.prix_m2))) := by
  unfold delta_prix
  rw [hy]

/-- C6 (confirmed).  The price-trend delta is 0 for an empty cleaned set;
otherwise the most recent year `y` is the maximum mutation year, the rows
of year `y` are never empty, and the delta is the toward-zero integer
truncation (Python `int(...)`) of the median of `prix_m2` over year `y`
minus the median over all rows. -/
theorem C6_delta_prix :
    delta_prix [] = 0 ∧
    ∀ df : List CleanTransac, df ≠ [] →
      ∃ y : Int, (df.map (fun c => c.date.year)).max? = some y ∧
        df.filter (fun c => decide (c.date.year = y)) ≠ [] ∧
        delta_prix df =
          truncQ (pandasMedian ((df.filter (fun c => decide (c.date.year = y))).map
              (fun c => c.prix_m2)) -
            pandasMedian (df.map (fun c => c.prix_m2))) := by
  constructor
  · rfl
  · intro df hdf
    have hne : df.map (fun c => c.date.year) ≠ [] := by simpa using hdf
    obtain ⟨y, hy⟩ : ∃ y, (df.map (fun c => c.date.year)).max? = some y := by
      cases hmax : (df.map (fun c => c.date.year)).max? with
      | none => exact absurd (List.max?_eq_none_iff.mp hmax) hne
      | some y => exact ⟨y, rfl⟩
    have hymem : y ∈ df.map (fun c => c.date.year) :=
      List.max?_mem (fun a b => max_choice a b) hy
    rw [List.mem_map] at hymem
    obtain ⟨c0, hc0, hc0y⟩ := hymem
    have hfil : df.filter (fun c => decide (c.date.year = y)) ≠ [] := by
      apply List.ne_nil_of_mem (a := c0)
      rw [List.mem_filter]
      exact ⟨hc0, by simp [hc0y]⟩
    refine ⟨y, hy, hfil, ?_⟩
    rw [delta_prix_eq_of_max hy, if_neg (by simpa using hfil)]

/-- Witness for C6 at a concrete input: two cleaned transactions in years
2020 and 2021 instantiate the non-empty case. -/
theorem C6_delta_prix_witness :
    ∃ y : Int,
      (([⟨⟨2020, 1, 1⟩, 1, 1, 1000⟩, ⟨⟨2021, 1, 1⟩, 1, 1, 2000⟩] :
        List CleanTransac).map (fun c => c.date.year)).max? = some y ∧
      ([⟨⟨2020, 1, 1⟩, 1, 1, 1000⟩, ⟨⟨2021, 1, 1⟩, 1, 1, 2000⟩] :
        List CleanTransac).filter (fun c => decide (c.date.year = y)) ≠ [] ∧
      delta_prix [⟨⟨2020, 1, 1⟩, 1, 1, 1000⟩, ⟨⟨2021, 1, 1⟩, 1, 1, 2000⟩] =
        truncQ (pandasMedian ((([⟨⟨2020, 1, 1⟩, 1, 1, 1000⟩,
              ⟨⟨2021, 1, 1⟩, 1, 1, 2000⟩] :
            List CleanTransac).filter (fun c => decide (c.date.year = y))).map
            (fun c => c.prix_m2)) -
          pandasMedian (([⟨⟨2020, 1, 1⟩, 1, 1, 1000⟩,
              ⟨⟨2021, 1, 1⟩, 1, 1, 2000⟩] :
            List CleanTransac).map (fun c => c.prix_m2))) :=
  C6_delta_prix.2 _ (List.cons_ne_nil _ _)

theorem dedupAux_mem {r : VilleRow} :
    ∀ (seen : List String) (l : List VilleRow), r ∈ dedupAux seen l →
      labelOf r ∉ seen ∧
      l.find? (fun x => decide (labelOf x = labelOf r)) = some r := by
  intro seen l
  induction l generalizing seen with
  | nil => intro h; exact absurd h (by simp [dedupAux])
  | cons a rest ih =>
    intro h
    simp only [dedupAux] at h
    by_cases ha : labelOf a ∈ seen
    · rw [if_pos ha] at h
      obtain ⟨hnot, hfind⟩ := ih seen h
      have hne : ¬labelOf a = labelOf r := fun he => hnot (he ▸ ha)
      refine ⟨hnot, ?_⟩
      rw [List.find?_cons_of_neg _ (by simpa using hne)]
      exact hfind
    · rw [if_neg ha] at h
      rcases List.mem_cons.mp h with rfl | h'
      · exact ⟨ha, List.find?_cons_of_pos _ (by simp)⟩
      · obtain ⟨hnot, hfind⟩ := ih (labelOf a :: seen) h'
        have hne : ¬labelOf a = labelOf r := by
          intro he
          exact hnot (by rw [← he]; exact List.mem_cons_self _ _)
        refine ⟨fun hc => hnot (List.mem_cons_of_mem _ hc), ?_⟩
        rw [List.find?_cons_of_neg _ (by simpa using hne)]
        exact hfind

theorem dedupAux_pairwise :
    ∀ (seen : List String) (l : List VilleRow),
      (dedupAux seen l).Pairwise (fun a b => labelOf a ≠ labelOf b) := by
  intro seen l
  induction l generalizing seen with
  | nil => simp [dedupAux]
  | cons a rest ih =>
    simp only [dedupAux]
    by_cases ha : labelOf a ∈ seen
    · rw [if_pos ha]; exact ih seen
    · rw [if_neg ha]
      refine List.Pairwise.cons ?_ (ih _)
      intro b hb he
      exact (dedupAux_mem _ _ hb).1 (by rw [← he]; exact List.mem_cons_self _ _)

theorem dedupAux_covers :
    ∀ (seen : List String) (l : List VilleRow) (r0 : VilleRow), r0 ∈ l →
      labelOf r0 ∈ seen ∨ ∃ r ∈ dedupAux seen l, labelOf r = labelOf r0 := by
  intro seen l
  induction l generalizing seen with
  | nil => intro r0 h; exact absurd h (List.not_mem_nil _)
  | cons a rest ih =>
    intro r0 h
    simp only [dedupAux]
    by_cases ha : labelOf a ∈ seen
    · rw [if_pos ha]
      rcases List.mem_cons.mp h with rfl | h'
      · exact Or.inl ha
      · exact ih seen r0 h'
    · rw [if_neg ha]
      rcases List.mem_cons.mp h with heq | h'
      · exact Or.inr ⟨a, List.mem_cons_self _ _, by rw [heq]⟩
      · rcases ih (labelOf a :: seen) r0 h' with hin | ⟨r, hr, hlr⟩
        · rcases List.mem_cons.mp hin with heq | hseen
          · exact Or.inr ⟨a, List.mem_cons_self _ _, heq.symm⟩
          · exact Or.inl hseen
        · exact Or.inr ⟨r, List.mem_cons_of_mem _ hr, hlr⟩

/-- C10 (confirmed).  The returned directory keeps, for each label (name
plus zero-padded join key), exactly the first row in fetched order —
`find?` on the fetched (normalized) rows returns precisely the surviving
row — so any later-fetched row sharing the label (even if it differs in
other fields such as the INSEE code) is absent; labels in the output are
pairwise distinct; no label is lost; and the output is sorted by commune
name. -/
theorem C10_dedup_keeps_first (rows : List VilleRow) :
    (∀ r ∈ get_villes_list_process rows,
      (rows.map normalizeVille).find?
        (fun x => decide (labelOf x = labelOf r)) = some r) ∧
    (get_villes_list_process rows).Pairwise (fun a b => labelOf a ≠ labelOf b) ∧
    (∀ r0 ∈ rows.map normalizeVille,
      ∃ r ∈ get_villes_list_process rows, labelOf r = labelOf r0) ∧
    (get_villes_list_process rows).Sorted nameLe := by
  have hperm : List.Perm (get_villes_list_process rows)
      (dedupByLabel (rows.map normalizeVille)) :=
    List.perm_insertionSort nameLe _
  refine ⟨?_, ?_, ?_, List.sorted_insertionSort nameLe _⟩
  · intro r hr
    have hr' : r ∈ dedupByLabel (rows.map normalizeVille) := hperm.mem_iff.mp hr
    exact (dedupAux_mem _ _ hr').2
  · have hsym : Symmetric (fun a b : VilleRow => labelOf a ≠ labelOf b) :=
      fun a b h he => h he.symm
    exact (hperm.pairwise_iff (fun hxy => hsym hxy)).mpr
      (dedupAux_pairwise _ _)
  · intro r0 hr0
    rcases dedupAux_covers [] (rows.map normalizeVille) r0 hr0 with hin | ⟨r, hr, hlr⟩
    · exact absurd hin (List.not_mem_nil _)
    · exact ⟨r, hperm.mem_iff.mpr hr, hlr⟩

/-- Witness for C10 at a concrete input: two fetched rows share the name
`Paris` and the join key `750` (normalized `00750`) but differ in INSEE
code; the directory keeps the first one. -/
theorem C10_dedup_keeps_first_witness :
    (([⟨"00001", "750", "Paris"⟩, ⟨"00002", "750", "Paris"⟩] :
      List VilleRow).map normalizeVille).find?
      (fun x => decide (labelOf x = labelOf (⟨"00001", "00750", "Paris"⟩ : VilleRow))) =
      some ⟨"00001", "00750", "Paris"⟩ :=
  (C10_dedup_keeps_first _).1 _ (by decide)

/-- C3 (confirmed).  For short digit-only values, `zfill 5` left-pads
with zeros to exactly 5 characters; `"750"` becomes `"00750"`; the detail
fetcher and the transaction fetcher both query with the zero-padded key;
and every row in the returned directory has both its codes normalized
(zero-padded) before the deduplication/comparison step. -/
theorem C3_zero_padding :
    (∀ s : String, s.length < 5 → (∀ c ∈ s.data, c.isDigit) →
      zfill 5 s = String.mk (List.replicate (5 - s.length) '0' ++ s.data) ∧
      (zfill 5 s).length = 5) ∧
    zfill 5 "750" = "00750" ∧
    (∀ k : String, (cityDataQuery k).eqVal = zfill 5 k) ∧
    (∀ k : String, (transactionsQuery k).eqVal = zfill 5 k) ∧
    (∀ (rows : List VilleRow) (r : VilleRow), r ∈ get_villes_list_process rows →
      ∃ r0 ∈ rows, r = normalizeVille r0) := by
  refine ⟨?_, by decide, fun k => rfl, fun k => rfl, ?_⟩
  · intro s hlen hdig
    obtain ⟨data⟩ := s
    have hlen' : data.length < 5 := hlen
    rw [zfill, if_neg (by simp only [String.length_mk]; omega)]
    cases data with
    | nil =>
      constructor
      · simp
      · decide
    | cons c rest =>
      have hc : c.isDigit := hdig c (List.mem_cons_self _ _)
      have hsign : ¬(c = '+' ∨ c = '-') := by
        rintro (rfl | rfl) <;> simp [Char.isDigit] at hc
      dsimp only
      rw [if_neg hsign]
      refine ⟨rfl, ?_⟩
      simp only [String.length_mk, List.length_append, List.length_replicate]
      omega
  · intro rows r hr
    have hr' : r ∈ dedupByLabel (rows.map normalizeVille) :=
      (List.perm_insertionSort nameLe _).mem_iff.mp hr
    have hr'' : r ∈ rows.map normalizeVille :=
      List.mem_of_find?_eq_some (dedupAux_mem _ _ hr').2
    rw [List.mem_map] at hr''
    obtain ⟨r0, hr0, hr0e⟩ := hr''
    exact ⟨r0, hr0, hr0e.symm⟩

/-- Witness for C3 at a concrete input: `"750"` is digits-only and
shorter than 5, so it is left-padded to `"00750"`; and a concrete fetched
row appears in the directory only in normalized form. -/
theorem C3_zero_padding_witness :
    (zfill 5 "750" = String.mk (List.replicate (5 - "750".length) '0' ++ "750".data) ∧
     (zfill 5 "750").length = 5) ∧
    ∃ r0 ∈ ([⟨"1", "750", "Paris"⟩] : List VilleRow),
      (⟨"00001", "00750", "Paris"⟩ : VilleRow) = normalizeVille r0 := by
  constructor
  · exact C3_zero_padding.1 "750" (by decide) (by decide)
  · exact C3_zero_padding.2.2.2.2 [⟨"1", "750", "Paris"⟩] _ (by decide)

end AppImmo
